import Mathlib

/-!
Verification of the better-auth-spicedb plugin (src/src/server.ts, src/src/client.ts,
src/src/index.ts) against its natural-language specification.

The TypeScript source is shallowly embedded below:

* JavaScript strings are Lean `String`s; `a || b` on possibly-undefined strings is
  `jsOr` on `Option String` (undefined is `none`, and the empty string is falsy);
  the truthiness test `!x` is `jsFalsy`.
* The remote SpiceDB engine is an oracle function supplied as a parameter:
  check calls return `Except String Permissionship` (`.error` is a gRPC rejection),
  write calls return `Except String Unit`, and the streaming lookup call yields a
  `List (Except String String)` that the endpoint iterates until exhaustion or the
  first `.error` (a stream failure mid-iteration).
* An `async` handler either fulfills (`Except.ok`) or rejects (`Except.error`);
  `Promise.all` is `promiseAll`, which rejects iff some element rejects and
  otherwise returns the results in input order, exactly as JS guarantees
  independently of completion order.
* Endpoint handlers are instrumented: they return the HTTP-level response paired
  with the list of remote requests they issued, so "zero remote calls" is a
  provable statement.
-/

namespace BetterAuthSpicedb

/-- JS `String.prototype.startsWith`, embedded at the character level:
`s.startsWith(p)` holds iff the characters of `p` are an initial segment of
those of `s`. -/
def jsStartsWith (s p : String) : Bool :=
  p.data.isPrefixOf s.data

/-- JS falsiness of a possibly-undefined string: `undefined` (`none`) and the
empty string are falsy, every other string is truthy. -/
def jsFalsy : Option String → Bool
  | none => true
  | some s => s == ""

/-- JS `a || b` on possibly-undefined strings. -/
def jsOr (a b : Option String) : Option String :=
  if jsFalsy a then b else a

/-- server.ts line 125:
`const namespace = (id) => options.namespace ? options.namespace + id : id`.
The configured namespace is an `Option String`; `none` (unset) and `some ""`
are both falsy in JS, so both leave the id unchanged.  (The source names this
helper `namespace`, a reserved word in Lean.) -/
def namespaceId (ns : Option String) (id : String) : String :=
  match ns with
  | none => id
  | some p => if p = "" then id else p ++ id

/-- server.ts lines 410-412, the inverse direction applied to each streamed id in
`spicedbLookupResources`:
`options.namespace && rawId.startsWith(options.namespace) ? rawId.slice(options.namespace.length) : rawId`. -/
def decodeId (ns : Option String) (rawId : String) : String :=
  match ns with
  | none => rawId
  | some p => if p ≠ "" ∧ jsStartsWith rawId p then rawId.drop p.length else rawId

/-- `subjectId || session?.user?.id` followed by the `if (!actualSubjectId)` test
that every read endpoint performs (server.ts lines 271-272, 323-324, 383-384):
`none` exactly when the falsy test fires, otherwise the resolved non-empty id. -/
def actualSubject (subjectId sessionUserId : Option String) : Option String :=
  match jsOr subjectId sessionUserId with
  | none => none
  | some s => if s == "" then none else some s

/-- `v1.CheckPermissionResponse_Permissionship` of the engine protocol. -/
inductive Permissionship
  | UNSPECIFIED
  | NO_PERMISSION
  | HAS_PERMISSION
  | CONDITIONAL_PERMISSION
  deriving DecidableEq

/-- The optional caveat context (`Record<string, any>` in the source) is passed
through to the engine without inspection; modelled as a list of key-value pairs. -/
abbrev PermissionContext := List (String × String)

/-- `v1.ObjectReference`. -/
structure ObjectReference where
  objectType : String
  objectId : String
  deriving DecidableEq

/-- `v1.SubjectReference`. -/
structure SubjectReference where
  object : ObjectReference
  deriving DecidableEq

/-- `v1.CheckPermissionRequest` as the endpoints build it. -/
structure CheckPermissionRequest where
  resource : ObjectReference
  permission : String
  subject : SubjectReference
  context : Option PermissionContext
  deriving DecidableEq

/-- `v1.RelationshipUpdate_Operation`. -/
inductive RelationshipUpdate_Operation
  | TOUCH
  | DELETE
  deriving DecidableEq

/-- `v1.Relationship`. -/
structure Relationship where
  resource : ObjectReference
  relation : String
  subject : SubjectReference
  deriving DecidableEq

/-- `v1.RelationshipUpdate`. -/
structure RelationshipUpdate where
  operation : RelationshipUpdate_Operation
  relationship : Relationship
  deriving DecidableEq

/-- `v1.WriteRelationshipsRequest`. -/
structure WriteRelationshipsRequest where
  updates : List RelationshipUpdate
  deriving DecidableEq

/-- `v1.Consistency` as built in `spicedbLookupResources` (fullyConsistent). -/
structure Consistency where
  fullyConsistent : Bool
  deriving DecidableEq

/-- `v1.LookupResourcesRequest`. -/
structure LookupResourcesRequest where
  resourceObjectType : String
  permission : String
  subject : SubjectReference
  consistency : Consistency
  context : Option PermissionContext
  deriving DecidableEq

/-- A `{ type, id }` pair as taken by the relationship helpers. -/
structure ResourceRef where
  type : String
  id : String
  deriving DecidableEq

/-- server.ts lines 128-150: the request the internal `writeRelationship` helper
builds — a single TOUCH update with both ids namespaced. -/
def writeRelationshipRequest (ns : Option String) (resource : ResourceRef)
    (relation : String) (subject : ResourceRef) : WriteRelationshipsRequest :=
  { updates := [
      { operation := RelationshipUpdate_Operation.TOUCH,
        relationship :=
          { resource := { objectType := resource.type, objectId := namespaceId ns resource.id },
            relation := relation,
            subject := { object := { objectType := subject.type, objectId := namespaceId ns subject.id } } } } ] }

/-- server.ts lines 155-178: the request the internal `deleteRelationship` helper
builds — identical to `writeRelationshipRequest` but with operation DELETE. -/
def deleteRelationshipRequest (ns : Option String) (resource : ResourceRef)
    (relation : String) (subject : ResourceRef) : WriteRelationshipsRequest :=
  { updates := [
      { operation := RelationshipUpdate_Operation.DELETE,
        relationship :=
          { resource := { objectType := resource.type, objectId := namespaceId ns resource.id },
            relation := relation,
            subject := { object := { objectType := subject.type, objectId := namespaceId ns subject.id } } } } ] }

/-- JS `Promise.all` over already-spawned promises: rejects iff some element
rejects, otherwise fulfills with the results in input order (JS guarantees the
result array is ordered by input position, not by completion time). -/
def promiseAll {ε α : Type} : List (Except ε α) → Except ε (List α)
  | [] => Except.ok []
  | Except.ok a :: xs =>
    match promiseAll xs with
    | Except.ok rest => Except.ok (a :: rest)
    | Except.error e => Except.error e
  | Except.error e :: _ => Except.error e

/-- Body of `/spicedb/check` after zod validation (server.ts lines 257-264);
`subjectType` has already received its `"user"` default. -/
structure CheckBody where
  resourceType : String
  resourceId : String
  permission : String
  subjectId : Option String
  subjectType : String
  context : Option PermissionContext
  deriving DecidableEq

/-- The JSON payload of a `/spicedb/check` response together with its HTTP status. -/
structure CheckResponse where
  status : Nat
  allowed : Bool
  reason : Option String
  error : Option String
  deriving DecidableEq

/-- The `v1.CheckPermissionRequest` that `spicedbCheck` builds (server.ts lines
277-290) for resolved subject id `sid`. -/
def checkRequestOf (ns : Option String) (body : CheckBody) (sid : String) : CheckPermissionRequest :=
  { resource := { objectType := body.resourceType, objectId := namespaceId ns body.resourceId },
    permission := body.permission,
    subject := { object := { objectType := body.subjectType, objectId := namespaceId ns sid } },
    context := body.context }

/-- server.ts lines 253-301, the `/spicedb/check` endpoint handler.  Returns the
response paired with the list of engine calls issued.  An absent subject fails
closed with 401/"unauthenticated" before any engine call; an engine rejection is
caught and becomes 500 with `allowed: false`; otherwise `allowed` is the
comparison of the permissionship with HAS_PERMISSION (line 293). -/
def spicedbCheck (ns : Option String)
    (engine : CheckPermissionRequest → Except String Permissionship)
    (sessionUserId : Option String) (body : CheckBody) :
    CheckResponse × List CheckPermissionRequest :=
  match actualSubject body.subjectId sessionUserId with
  | none => ({ status := 401, allowed := false, reason := some "unauthenticated", error := none }, [])
  | some sid =>
    match engine (checkRequestOf ns body sid) with
    | Except.ok p =>
      ({ status := 200, allowed := p == Permissionship.HAS_PERMISSION, reason := none, error := none },
       [checkRequestOf ns body sid])
    | Except.error e =>
      ({ status := 500, allowed := false, reason := none, error := some e },
       [checkRequestOf ns body sid])

/-- One element of the `checks` array of `/spicedb/check-bulk`. -/
structure CheckItem where
  resourceType : String
  resourceId : String
  permission : String
  deriving DecidableEq

/-- Body of `/spicedb/check-bulk` after zod validation (server.ts lines 308-317). -/
structure BulkCheckBody where
  checks : List CheckItem
  subjectId : Option String
  subjectType : String
  context : Option PermissionContext
  deriving DecidableEq

/-- One element of the `results` array returned by `/spicedb/check-bulk`
(server.ts lines 349-354): the originating triple plus the boolean verdict. -/
structure BulkResultItem where
  resourceType : String
  resourceId : String
  permission : String
  allowed : Bool
  deriving DecidableEq

/-- The JSON payload of a `/spicedb/check-bulk` response with its HTTP status. -/
structure BulkCheckResponse where
  status : Nat
  results : List BulkResultItem
  reason : Option String
  error : Option String
  deriving DecidableEq

/-- The engine request `spicedbCheckBulk` builds for one check item
(server.ts lines 331-344). -/
def bulkItemRequest (ns : Option String) (subjectType : String)
    (context : Option PermissionContext) (sid : String) (c : CheckItem) : CheckPermissionRequest :=
  { resource := { objectType := c.resourceType, objectId := namespaceId ns c.resourceId },
    permission := c.permission,
    subject := { object := { objectType := subjectType, objectId := namespaceId ns sid } },
    context := context }

/-- The per-item async closure inside `checks.map` (server.ts lines 330-355):
calls the engine and, on success, tags the verdict with the item's own triple.
A rejection of the engine call rejects this item's promise. -/
def bulkItemCall (ns : Option String)
    (engine : CheckPermissionRequest → Except String Permissionship)
    (subjectType : String) (context : Option PermissionContext) (sid : String)
    (c : CheckItem) : Except String BulkResultItem :=
  match engine (bulkItemRequest ns subjectType context sid c) with
  | Except.ok p =>
    Except.ok { resourceType := c.resourceType, resourceId := c.resourceId,
                permission := c.permission, allowed := p == Permissionship.HAS_PERMISSION }
  | Except.error e => Except.error e

/-- server.ts lines 304-364, the `/spicedb/check-bulk` endpoint handler: subject
defaulting as in `spicedbCheck`, then `Promise.all(checks.map(...))` inside one
try/catch — a single rejected item rejects the whole `Promise.all`, the catch
fires, and the endpoint answers 500 with an empty `results` array (line 361).
All per-item engine calls are issued (the `map` spawns every promise), so the
instrumented call list contains one request per input item. -/
def spicedbCheckBulk (ns : Option String)
    (engine : CheckPermissionRequest → Except String Permissionship)
    (sessionUserId : Option String) (body : BulkCheckBody) :
    BulkCheckResponse × List CheckPermissionRequest :=
  match actualSubject body.subjectId sessionUserId with
  | none => ({ status := 401, results := [], reason := some "unauthenticated", error := none }, [])
  | some sid =>
    match promiseAll (body.checks.map (bulkItemCall ns engine body.subjectType body.context sid)) with
    | Except.ok results =>
      ({ status := 200, results := results, reason := none, error := none },
       body.checks.map (bulkItemRequest ns body.subjectType body.context sid))
    | Except.error e =>
      ({ status := 500, results := [], reason := none, error := some e },
       body.checks.map (bulkItemRequest ns body.subjectType body.context sid))

/-- Body of `/spicedb/lookup-resources` after zod validation (server.ts lines 371-377). -/
structure LookupBody where
  resourceType : String
  permission : String
  subjectId : Option String
  subjectType : String
  context : Option PermissionContext
  deriving DecidableEq

/-- The JSON payload of a `/spicedb/lookup-resources` response with its HTTP status. -/
structure LookupResponse where
  status : Nat
  resourceIds : List String
  reason : Option String
  error : Option String
  deriving DecidableEq

/-- The `v1.LookupResourcesRequest` built at server.ts lines 389-405: full
consistency is always requested. -/
def lookupRequestOf (ns : Option String) (body : LookupBody) (sid : String) : LookupResourcesRequest :=
  { resourceObjectType := body.resourceType,
    permission := body.permission,
    subject := { object := { objectType := body.subjectType, objectId := namespaceId ns sid } },
    consistency := { fullyConsistent := true },
    context := body.context }

/-- The `for await` loop of server.ts lines 407-414: walk the stream, decode each
id and accumulate; a raised stream error aborts the loop and propagates to the
surrounding try/catch, losing the accumulator. -/
def drainLookupStream (ns : Option String) (acc : List String) :
    List (Except String String) → Except String (List String)
  | [] => Except.ok acc.reverse
  | Except.ok rawId :: rest => drainLookupStream ns (decodeId ns rawId :: acc) rest
  | Except.error e :: _ => Except.error e

/-- server.ts lines 367-422, the `/spicedb/lookup-resources` endpoint handler:
subject defaulting, then the stream is drained; if the stream raises
mid-iteration the catch at line 417 answers 500 with a FRESH empty
`resourceIds` array — everything accumulated before the failure is discarded. -/
def spicedbLookupResources (ns : Option String)
    (engine : LookupResourcesRequest → List (Except String String))
    (sessionUserId : Option String) (body : LookupBody) : LookupResponse :=
  match actualSubject body.subjectId sessionUserId with
  | none => { status := 401, resourceIds := [], reason := some "unauthenticated", error := none }
  | some sid =>
    match drainLookupStream ns [] (engine (lookupRequestOf ns body sid)) with
    | Except.ok ids => { status := 200, resourceIds := ids, reason := none, error := none }
    | Except.error e => { status := 500, resourceIds := [], reason := none, error := some e }

/-- Body of the two mutation endpoints (server.ts lines 430-440 and 463-473). -/
structure RelationshipBody where
  resource : ResourceRef
  relation : String
  subject : ResourceRef
  deriving DecidableEq

/-- The JSON payload of a mutation endpoint response with its HTTP status. -/
structure RelationshipResponse where
  status : Nat
  success : Bool
  error : Option String
  deriving DecidableEq

/-- server.ts lines 442-454, the `/spicedb/write-relationship` handler body:
delegates to the internal `writeRelationship` helper (TOUCH) and converts an
engine rejection into 500/`success: false`. -/
def writeRelationshipHandler (ns : Option String)
    (engine : WriteRelationshipsRequest → Except String Unit)
    (body : RelationshipBody) : RelationshipResponse × List WriteRelationshipsRequest :=
  let req := writeRelationshipRequest ns body.resource body.relation body.subject
  match engine req with
  | Except.ok _ => ({ status := 200, success := true, error := none }, [req])
  | Except.error e => ({ status := 500, success := false, error := some e }, [req])

/-- server.ts lines 475-487, the `/spicedb/delete-relationship` handler body:
delegates to the internal `deleteRelationship` helper (DELETE). -/
def deleteRelationshipHandler (ns : Option String)
    (engine : WriteRelationshipsRequest → Except String Unit)
    (body : RelationshipBody) : RelationshipResponse × List WriteRelationshipsRequest :=
  let req := deleteRelationshipRequest ns body.resource body.relation body.subject
  match engine req with
  | Except.ok _ => ({ status := 200, success := true, error := none }, [req])
  | Except.error e => ({ status := 500, success := false, error := some e }, [req])

/-- The static metadata attached to an endpoint declaration. -/
structure EndpointMeta where
  path : String
  method : String
  requireAdmin : Bool
  deriving DecidableEq

/-- server.ts lines 425-429: `/spicedb/write-relationship` is declared with
`requireAdmin: true`. -/
def writeRelationshipMeta : EndpointMeta :=
  { path := "/spicedb/write-relationship", method := "POST", requireAdmin := true }

/-- server.ts lines 458-462: `/spicedb/delete-relationship` is declared with
`requireAdmin: true`. -/
def deleteRelationshipMeta : EndpointMeta :=
  { path := "/spicedb/delete-relationship", method := "POST", requireAdmin := true }

/-- Modelled from the spec: the endpoint wrapper (`createAuthEndpoint`, supplied
by the external auth framework and not part of src/) enforcing the
`requireAdmin` metadata that server.ts attaches to the two mutation endpoints.
Per the spec, "the two mutation endpoints must be restricted to callers with
elevated privilege" and an unprivileged caller gets a "403-equivalent, operation
not attempted": the guard answers 403 before the handler body runs, so no
remote request is issued. -/
def runGuardedEndpoint (meta : EndpointMeta) (callerPrivileged : Bool)
    (handler : Unit → RelationshipResponse × List WriteRelationshipsRequest) :
    RelationshipResponse × List WriteRelationshipsRequest :=
  if meta.requireAdmin && !callerPrivileged then
    ({ status := 403, success := false, error := some "forbidden" }, [])
  else handler ()

/-- types.ts `RelationshipMapping`, over an abstract event payload type `Ev`.
The two extractors are arbitrary JS functions: they may throw (`Except.error`)
or produce `null`/`undefined` (`none`) or a string.  The source names the event
field `on`, a reserved word in Lean. -/
structure RelationshipMapping (Ev : Type) where
  onEvent : String
  resourceType : String
  relation : String
  subjectType : String
  resourceId : Ev → Except String (Option String)
  subjectId : Ev → Except String (Option String)

/-- What one dispatched mapping handler did: which remote write calls it issued
and which of the three log statements it emitted. -/
inductive HandlerLog
  | synced
  | skippedMissingIds
  | syncFailed (msg : String)
  deriving DecidableEq

/-- The observable outcome of one mapping handler invocation. -/
structure HandlerResult where
  attempted : List WriteRelationshipsRequest
  log : HandlerLog
  deriving DecidableEq

/-- server.ts lines 222-243, the handler closure pushed for a custom mapping.
Its whole body sits inside one try/catch: an extractor throwing or the writer
rejecting lands in the catch (log an error); both extractors returning values
with either falsy is the skip-with-warning branch of lines 228-231; otherwise
the write is attempted via the internal helper.  Every code path returns
normally, which is why this is a total function. -/
def handlerRun {Ev : Type} (ns : Option String)
    (engine : WriteRelationshipsRequest → Except String Unit)
    (m : RelationshipMapping Ev) (ev : Ev) : HandlerResult :=
  match m.resourceId ev with
  | Except.error e => { attempted := [], log := HandlerLog.syncFailed e }
  | Except.ok rid =>
    match m.subjectId ev with
    | Except.error e => { attempted := [], log := HandlerLog.syncFailed e }
    | Except.ok sid =>
      if jsFalsy rid || jsFalsy sid then
        { attempted := [], log := HandlerLog.skippedMissingIds }
      else
        match engine (writeRelationshipRequest ns
            { type := m.resourceType, id := rid.getD "" } m.relation
            { type := m.subjectType, id := sid.getD "" }) with
        | Except.ok _ =>
          { attempted := [writeRelationshipRequest ns
              { type := m.resourceType, id := rid.getD "" } m.relation
              { type := m.subjectType, id := sid.getD "" }],
            log := HandlerLog.synced }
        | Except.error e =>
          { attempted := [writeRelationshipRequest ns
              { type := m.resourceType, id := rid.getD "" } m.relation
              { type := m.subjectType, id := sid.getD "" }],
            log := HandlerLog.syncFailed e }

/-- The registered hook as an async function: since every path of `handlerRun`
returns normally (the try/catch swallows all failures), the promise the hook
produces always fulfills. -/
def registeredHandler {Ev : Type} (ns : Option String)
    (engine : WriteRelationshipsRequest → Except String Unit)
    (m : RelationshipMapping Ev) : Ev → Except String HandlerResult :=
  fun ev => Except.ok (handlerRun ns engine m ev)

/-- server.ts lines 218-245: `options.relationships.forEach` pushes each
mapping's handler onto `hooks[mapping.on]`, creating the list when absent.
For a given event name this yields exactly the mappings carrying that name, in
registration order — embedded as a filter. -/
def hooksFor {Ev : Type} (maps : List (RelationshipMapping Ev)) (eventName : String) :
    List (RelationshipMapping Ev) :=
  maps.filter (fun m => m.onEvent == eventName)

/-- index.ts lines 22-33, `createEventEmitter`: look up the hooks registered for
the event name and run them all under `Promise.all` (a missing entry resolves
after a warning, which coincides with `promiseAll` over the empty list). -/
def emitEvent {Ev : Type} (ns : Option String)
    (engine : WriteRelationshipsRequest → Except String Unit)
    (maps : List (RelationshipMapping Ev)) (eventName : String) (ev : Ev) :
    Except String (List HandlerResult) :=
  promiseAll ((hooksFor maps eventName).map (fun m => registeredHandler ns engine m ev))

instance {ε α : Type} [DecidableEq ε] [DecidableEq α] : DecidableEq (Except ε α) := fun a b =>
  match a, b with
  | Except.ok x, Except.ok y =>
    if h : x = y then Decidable.isTrue (by rw [h])
    else Decidable.isFalse (by intro hc; cases hc; exact h rfl)
  | Except.error x, Except.error y =>
    if h : x = y then Decidable.isTrue (by rw [h])
    else Decidable.isFalse (by intro hc; cases hc; exact h rfl)
  | Except.ok _, Except.error _ => Decidable.isFalse (by intro hc; cases hc)
  | Except.error _, Except.ok _ => Decidable.isFalse (by intro hc; cases hc)

/-- The `(resourceType, resourceId, permission)` triple of an input check item. -/
def tripleOfItem (c : CheckItem) : String × String × String :=
  (c.resourceType, c.resourceId, c.permission)

/-- The `(resourceType, resourceId, permission)` triple a bulk result carries. -/
def tripleOfResult (r : BulkResultItem) : String × String × String :=
  (r.resourceType, r.resourceId, r.permission)

/-! Concrete fixtures used by individual witnesses and counterexamples. -/

/-- A lookup body for the mixed-stream decoding scenario. -/
def c4Body : LookupBody :=
  { resourceType := "doc", permission := "view", subjectId := some "alice",
    subjectType := "user", context := none }

/-- A mock engine that streams the ids `ns_a`, `ns_b`, `c` and ends cleanly. -/
def c4Engine : LookupResourcesRequest → List (Except String String) :=
  fun _ => [Except.ok "ns_a", Except.ok "ns_b", Except.ok "c"]

/-- A mock check engine that rejects exactly the requests naming resource `bad`
and affirms every other request. -/
def c2Engine : CheckPermissionRequest → Except String Permissionship :=
  fun r => if r.resource.objectId = "bad" then Except.error "boom"
           else Except.ok Permissionship.HAS_PERMISSION

/-- A two-item bulk body whose second item the mock engine rejects. -/
def c2Body : BulkCheckBody :=
  { checks := [ { resourceType := "doc", resourceId := "good", permission := "view" },
                { resourceType := "doc", resourceId := "bad", permission := "view" } ],
    subjectId := some "alice", subjectType := "user", context := none }

/-- The first (remotely succeeding) item of `c2Body`. -/
def c2GoodItem : CheckItem :=
  { resourceType := "doc", resourceId := "good", permission := "view" }

/-- The second (remotely rejected) item of `c2Body`. -/
def c2BadItem : CheckItem :=
  { resourceType := "doc", resourceId := "bad", permission := "view" }

/-- A mock check engine that affirms the first item and denies the second. -/
def c5Engine : CheckPermissionRequest → Except String Permissionship :=
  fun r => if r.resource.objectId = "d1" then Except.ok Permissionship.HAS_PERMISSION
           else Except.ok Permissionship.NO_PERMISSION

/-- A two-item bulk body on which `c5Engine` fully succeeds. -/
def c5Body : BulkCheckBody :=
  { checks := [ { resourceType := "doc", resourceId := "d1", permission := "view" },
                { resourceType := "doc", resourceId := "d2", permission := "edit" } ],
    subjectId := some "alice", subjectType := "user", context := none }

/-- A check body with no subject supplied. -/
def c1Body : CheckBody :=
  { resourceType := "doc", resourceId := "d1", permission := "view",
    subjectId := none, subjectType := "user", context := none }

/-- A check body whose subject is supplied explicitly. -/
def c8Body : CheckBody :=
  { resourceType := "doc", resourceId := "d1", permission := "view",
    subjectId := some "alice", subjectType := "user", context := none }

/-- A mock check engine answering CONDITIONAL_PERMISSION to everything. -/
def c8Engine : CheckPermissionRequest → Except String Permissionship :=
  fun _ => Except.ok Permissionship.CONDITIONAL_PERMISSION

/-- A lookup body for the stream-failure scenario. -/
def c6Body : LookupBody :=
  { resourceType := "doc", permission := "view", subjectId := some "alice",
    subjectType := "user", context := none }

/-- A mock engine whose stream yields one id and then fails. -/
def c6Engine : LookupResourcesRequest → List (Except String String) :=
  fun _ => [Except.ok "d1", Except.error "stream reset"]

/-- A write engine that accepts everything. -/
def okWriteEngine : WriteRelationshipsRequest → Except String Unit :=
  fun _ => Except.ok ()

/-- A mapping whose resource extractor throws on every event. -/
def c7m1 : RelationshipMapping Nat :=
  { onEvent := "agent.created", resourceType := "agent", relation := "owner",
    subjectType := "user",
    resourceId := fun _ => Except.error "extractor crashed",
    subjectId := fun _ => Except.ok (some "alice") }

/-- A mapping registered under the same event name as `c7m1` whose extractors
both succeed. -/
def c7m2 : RelationshipMapping Nat :=
  { onEvent := "agent.created", resourceType := "agent", relation := "department",
    subjectType := "department",
    resourceId := fun _ => Except.ok (some "a1"),
    subjectId := fun _ => Except.ok (some "eng") }

/-- A write engine that rejects everything. -/
def c7FailEngine : WriteRelationshipsRequest → Except String Unit :=
  fun _ => Except.error "disk full"

/-- A mapping whose resource extractor yields the empty string on every event. -/
def c9m : RelationshipMapping Nat :=
  { onEvent := "agent.created", resourceType := "agent", relation := "owner",
    subjectType := "user",
    resourceId := fun _ => Except.ok (some ""),
    subjectId := fun _ => Except.ok (some "alice") }

/-- A concrete mutation-endpoint handler thunk (namespace unset, engine accepts). -/
def c3Handler : Unit → RelationshipResponse × List WriteRelationshipsRequest :=
  fun _ => writeRelationshipHandler none okWriteEngine
    { resource := { type := "agent", id := "a1" }, relation := "owner",
      subject := { type := "user", id := "alice" } }

/-! Helper lemmas. -/

theorem string_append_data (a b : String) : (a ++ b).data = a.data ++ b.data := rfl

theorem jsStartsWith_append (p r : String) : jsStartsWith (p ++ r) p = true := by
  simp [jsStartsWith, string_append_data]

theorem string_drop_append_left (p r : String) : (p ++ r).drop p.length = r := by
  rw [String.drop_eq]
  show String.mk ((p.data ++ r.data).drop p.data.length) = r
  rw [List.drop_left]

/-- C4: for every namespace prefix and raw id, decoding the encoding is the
identity — `decodeId ns (namespaceId ns r) = r` — where encoding prepends the
configured namespace when set (identity when unset or empty) and decoding strips
it only from ids that start with it; consequently a lookup against an engine
streaming `ns_a`, `ns_b`, `c` under namespace `ns_` returns the ids
`a`, `b`, `c` (mixed prefixed and unprefixed ids tolerated). -/
theorem decode_encode_roundtrip :
    (∀ (ns : Option String) (r : String), decodeId ns (namespaceId ns r) = r) ∧
    (spicedbLookupResources (some "ns_") c4Engine none c4Body).resourceIds = ["a", "b", "c"] := by
  constructor
  · intro ns r
    match ns with
    | none => rfl
    | some p =>
      by_cases hp : p = ""
      · simp [namespaceId, decodeId, hp]
      · simp [namespaceId, decodeId, hp, jsStartsWith_append, string_drop_append_left]
  · decide

/-- C10: with a non-empty namespace `p` configured, decoding strips `p` from any
streamed id that starts with `p`, including ids that were never encoded: for raw
`r` beginning with `p`, `decodeId (some p) r ≠ r`, so decoding is not injective
(`ns_a` and `a` both decode to `a` under namespace `ns_`) and legacy unprefixed
ids beginning with the namespace come back shortened. -/
theorem decode_not_injective (p r : String) (hp : p ≠ "") (hr : jsStartsWith r p = true) :
    decodeId (some p) r ≠ r ∧
    decodeId (some "ns_") "ns_a" = decodeId (some "ns_") "a" ∧ ("ns_a" : String) ≠ "a" := by
  refine ⟨?_, by decide, by decide⟩
  have hdec : decodeId (some p) r = r.drop p.length := by
    simp [decodeId, hp, hr]
  rw [hdec]
  have hpre : p.data <+: r.data := by
    simpa [jsStartsWith] using hr
  have hple : p.data.length ≤ r.data.length := hpre.length_le
  have hppos : 0 < p.data.length := by
    rcases p with ⟨l⟩
    cases l with
    | nil => exact absurd rfl hp
    | cons a t => simp
  intro heq
  have hdata : (r.data.drop p.data.length) = r.data := by
    have := congrArg String.data heq
    rwa [String.drop_eq] at this
  have hlen := congrArg List.length hdata
  simp only [List.length_drop] at hlen
  omega

/-- Witness for C10 at namespace `ns_` and raw id `ns_raw`. -/
theorem decode_not_injective_witness :
    decodeId (some "ns_") "ns_raw" ≠ "ns_raw" ∧
    decodeId (some "ns_") "ns_a" = decodeId (some "ns_") "a" ∧ ("ns_a" : String) ≠ "a" :=
  decode_not_injective "ns_" "ns_raw" (by decide) (by decide)

theorem actualSubject_none {a b : Option String} (ha : jsFalsy a = true)
    (hb : jsFalsy b = true) : actualSubject a b = none := by
  unfold actualSubject jsOr
  rw [if_pos ha]
  cases b with
  | none => rfl
  | some s =>
    have hs : (s == "") = true := by simpa [jsFalsy] using hb
    simp [hs]

/-- C1: a check request whose `subjectId` is absent or empty and whose session
carries no usable subject identity fails closed — the endpoint answers 401 with
`allowed: false` and reason `unauthenticated`, and issues zero engine calls. -/
theorem check_unauthenticated_fails_closed (ns : Option String)
    (engine : CheckPermissionRequest → Except String Permissionship)
    (sessionUserId : Option String) (body : CheckBody)
    (hsub : jsFalsy body.subjectId = true) (hsess : jsFalsy sessionUserId = true) :
    spicedbCheck ns engine sessionUserId body
      = ({ status := 401, allowed := false, reason := some "unauthenticated", error := none }, []) := by
  unfold spicedbCheck
  rw [actualSubject_none hsub hsess]

/-- Witness for C1: no `subjectId` in the body, no session, an engine that would
affirm everything — the response is still the fail-closed 401 with no calls. -/
theorem check_unauthenticated_fails_closed_witness :
    spicedbCheck none (fun _ => Except.ok Permissionship.HAS_PERMISSION) none c1Body
      = ({ status := 401, allowed := false, reason := some "unauthenticated", error := none }, []) :=
  check_unauthenticated_fails_closed none _ none c1Body (by decide) (by decide)

/-- C8: for a check that reaches the engine, `allowed` is true iff the engine's
permissionship is exactly HAS_PERMISSION; NO_PERMISSION, CONDITIONAL_PERMISSION
and UNSPECIFIED all yield `allowed = false`. -/
theorem check_allowed_iff_has_permission (ns : Option String)
    (engine : CheckPermissionRequest → Except String Permissionship)
    (sessionUserId : Option String) (body : CheckBody) (sid : String) (p : Permissionship)
    (hsub : actualSubject body.subjectId sessionUserId = some sid)
    (hp : engine (checkRequestOf ns body sid) = Except.ok p) :
    ((spicedbCheck ns engine sessionUserId body).1.allowed = true
        ↔ p = Permissionship.HAS_PERMISSION) ∧
    (spicedbCheck ns engine sessionUserId body).1.status = 200 := by
  simp only [spicedbCheck, hsub, hp]
  simp

/-- Witness for C8: an engine answering CONDITIONAL_PERMISSION produces
`allowed = false` on a 200 response. -/
theorem check_allowed_iff_has_permission_witness :
    (((spicedbCheck none c8Engine none c8Body).1.allowed = true
        ↔ Permissionship.CONDITIONAL_PERMISSION = Permissionship.HAS_PERMISSION) ∧
      (spicedbCheck none c8Engine none c8Body).1.status = 200) ∧
    (spicedbCheck none c8Engine none c8Body).1.allowed = false :=
  ⟨check_allowed_iff_has_permission none c8Engine none c8Body "alice"
      Permissionship.CONDITIONAL_PERMISSION (by decide) rfl,
    by decide⟩

theorem promiseAll_map_ok {α β γ : Type} (f : α → Except String β) (g : β → γ) (g2 : α → γ)
    (hfg : ∀ a b, f a = Except.ok b → g b = g2 a) :
    ∀ (l : List α) (rs : List β), promiseAll (l.map f) = Except.ok rs → rs.map g = l.map g2 := by
  intro l
  induction l with
  | nil =>
    intro rs h
    simp only [List.map_nil, promiseAll] at h
    cases h
    rfl
  | cons a t ih =>
    intro rs h
    rw [List.map_cons] at h
    cases hfa : f a with
    | error e =>
      rw [hfa] at h
      simp [promiseAll] at h
    | ok b =>
      rw [hfa] at h
      cases hpt : promiseAll (t.map f) with
      | error e =>
        rw [promiseAll, hpt] at h
        cases h
      | ok rest =>
        rw [promiseAll, hpt] at h
        cases h
        rw [List.map_cons, List.map_cons, hfg a b hfa, ih rest hpt]

theorem promiseAll_error_of_mem {ε α : Type} (l : List (Except ε α)) (e : ε)
    (h : Except.error e ∈ l) : ∃ e2, promiseAll l = Except.error e2 := by
  induction l with
  | nil => simp at h
  | cons x t ih =>
    cases x with
    | error e0 => exact ⟨e0, rfl⟩
    | ok a =>
      have hmem : Except.error e ∈ t := by simpa using h
      obtain ⟨e2, he2⟩ := ih hmem
      exact ⟨e2, by rw [promiseAll, he2]⟩

theorem bulkItemCall_triple (ns : Option String)
    (engine : CheckPermissionRequest → Except String Permissionship)
    (st : String) (ctx : Option PermissionContext) (sid : String)
    (c : CheckItem) (r : BulkResultItem)
    (h : bulkItemCall ns engine st ctx sid c = Except.ok r) :
    tripleOfResult r = tripleOfItem c := by
  unfold bulkItemCall at h
  cases he : engine (bulkItemRequest ns st ctx sid c) with
  | ok p =>
    rw [he] at h
    cases h
    rfl
  | error e =>
    rw [he] at h
    cases h

/-- C5: a successful bulk check answers one result per input check, in input
order — the result at position i carries the (resourceType, resourceId,
permission) triple of the input at position i.  In the embedding `Promise.all`
orders its output by input position by definition, which is exactly the JS
guarantee that makes the property independent of remote completion order. -/
theorem checkBulk_preserves_order_and_cardinality (ns : Option String)
    (engine : CheckPermissionRequest → Except String Permissionship)
    (sessionUserId : Option String) (body : BulkCheckBody)
    (hok : (spicedbCheckBulk ns engine sessionUserId body).1.status = 200) :
    (spicedbCheckBulk ns engine sessionUserId body).1.results.length = body.checks.length ∧
    (spicedbCheckBulk ns engine sessionUserId body).1.results.map tripleOfResult
      = body.checks.map tripleOfItem := by
  cases hs : actualSubject body.subjectId sessionUserId with
  | none =>
    simp only [spicedbCheckBulk, hs] at hok
    exact absurd hok (by decide)
  | some sid =>
    cases hp : promiseAll (body.checks.map (bulkItemCall ns engine body.subjectType body.context sid)) with
    | error e =>
      simp only [spicedbCheckBulk, hs, hp] at hok
      exact absurd hok (by decide)
    | ok results =>
      have hres : (spicedbCheckBulk ns engine sessionUserId body).1.results = results := by
        simp only [spicedbCheckBulk, hs, hp]
      rw [hres]
      have hmap := promiseAll_map_ok
        (bulkItemCall ns engine body.subjectType body.context sid)
        tripleOfResult tripleOfItem
        (fun c r h => bulkItemCall_triple ns engine body.subjectType body.context sid c r h)
        body.checks results hp
      refine ⟨?_, hmap⟩
      have := congrArg List.length hmap
      simpa using this

/-- Witness for C5 on a concrete two-item batch that fully succeeds. -/
theorem checkBulk_preserves_order_witness :
    (spicedbCheckBulk none c5Engine none c5Body).1.results.length = c5Body.checks.length ∧
    (spicedbCheckBulk none c5Engine none c5Body).1.results.map tripleOfResult
      = c5Body.checks.map tripleOfItem :=
  checkBulk_preserves_order_and_cardinality none c5Engine none c5Body (by decide)

/-- C2 counterexample: with a two-item batch whose second item's remote call is
rejected, the sibling item's remote call succeeds, yet the endpoint answers the
atomic failure shape — status 500 with `results: []` — so the sibling's result
IS discarded, contradicting the claim as stated. -/
theorem checkBulk_sibling_result_discarded :
    c2Engine (bulkItemRequest none "user" none "alice" c2GoodItem)
      = Except.ok Permissionship.HAS_PERMISSION ∧
    c2Engine (bulkItemRequest none "user" none "alice" c2BadItem) = Except.error "boom" ∧
    (spicedbCheckBulk none c2Engine none c2Body).1.results = [] ∧
    (spicedbCheckBulk none c2Engine none c2Body).1.status = 500 := by
  decide

/-- C2 amended: when an item's remote call is rejected, the sibling items'
remote calls are still all issued (no cancellation at the fan-out), but the
batch fails atomically: the endpoint answers 500 with an empty `results` array
and an error message, discarding every sibling result. -/
theorem checkBulk_fails_atomically (ns : Option String)
    (engine : CheckPermissionRequest → Except String Permissionship)
    (sessionUserId : Option String) (body : BulkCheckBody) (sid : String)
    (c : CheckItem) (e : String)
    (hs : actualSubject body.subjectId sessionUserId = some sid)
    (hc : c ∈ body.checks)
    (he : engine (bulkItemRequest ns body.subjectType body.context sid c) = Except.error e) :
    (spicedbCheckBulk ns engine sessionUserId body).1.status = 500 ∧
    (spicedbCheckBulk ns engine sessionUserId body).1.results = [] ∧
    (spicedbCheckBulk ns engine sessionUserId body).1.error.isSome = true ∧
    (spicedbCheckBulk ns engine sessionUserId body).2
      = body.checks.map (bulkItemRequest ns body.subjectType body.context sid) := by
  have hcall : bulkItemCall ns engine body.subjectType body.context sid c = Except.error e := by
    unfold bulkItemCall
    rw [he]
  have hmem : Except.error e
      ∈ body.checks.map (bulkItemCall ns engine body.subjectType body.context sid) := by
    exact List.mem_map.mpr ⟨c, hc, hcall⟩
  obtain ⟨e2, he2⟩ := promiseAll_error_of_mem _ e hmem
  refine ⟨?_, ?_, ?_, ?_⟩ <;> simp [spicedbCheckBulk, hs, he2]

/-- Witness for the amended C2 on the concrete two-item batch. -/
theorem checkBulk_fails_atomically_witness :
    (spicedbCheckBulk none c2Engine none c2Body).1.status = 500 ∧
    (spicedbCheckBulk none c2Engine none c2Body).1.results = [] ∧
    (spicedbCheckBulk none c2Engine none c2Body).1.error.isSome = true ∧
    (spicedbCheckBulk none c2Engine none c2Body).2
      = c2Body.checks.map (bulkItemRequest none "user" none "alice") :=
  checkBulk_fails_atomically none c2Engine none c2Body "alice" c2BadItem "boom"
    (by decide) (by decide) (by decide)

theorem drainLookupStream_error (ns : Option String) (e : String)
    (rest : List (Except String String)) :
    ∀ (ids : List String) (acc : List String),
      drainLookupStream ns acc (ids.map Except.ok ++ Except.error e :: rest)
        = Except.error e := by
  intro ids
  induction ids with
  | nil => intro acc; rfl
  | cons i t ih =>
    intro acc
    rw [List.map_cons, List.cons_append, drainLookupStream]
    exact ih (decodeId ns i :: acc)

/-- C6: if the lookup stream fails at any point mid-iteration, the endpoint
answers 500 with `resourceIds: []` and the error message — every id received
before the failure is discarded, and (the handler being a total function) no
exception escapes the coordinator. -/
theorem lookup_discards_partial_results (ns : Option String)
    (engine : LookupResourcesRequest → List (Except String String))
    (sessionUserId : Option String) (body : LookupBody) (sid : String)
    (ids : List String) (e : String) (rest : List (Except String String))
    (hs : actualSubject body.subjectId sessionUserId = some sid)
    (hstream : engine (lookupRequestOf ns body sid)
      = ids.map Except.ok ++ Except.error e :: rest) :
    spicedbLookupResources ns engine sessionUserId body
      = { status := 500, resourceIds := [], reason := none, error := some e } := by
  simp only [spicedbLookupResources, hs, hstream, drainLookupStream_error]

/-- Witness for C6: one id arrives, then the stream resets — the id is dropped. -/
theorem lookup_discards_partial_results_witness :
    spicedbLookupResources none c6Engine none c6Body
      = { status := 500, resourceIds := [], reason := none, error := some "stream reset" } :=
  lookup_discards_partial_results none c6Engine none c6Body "alice" ["d1"] "stream reset" []
    (by decide) (by decide)

/-- C7: with two handlers registered under one event name, a dispatch runs both
— the emitted promise fulfills with both handlers' outcomes in registration
order, so a failure inside the first (here: its extractor throwing, which the
handler catches and logs as a failed sync) neither prevents the second from
running nor makes the dispatch call itself reject. -/
theorem dispatch_isolates_handler_failures {Ev : Type} (ns : Option String)
    (engine : WriteRelationshipsRequest → Except String Unit)
    (m1 m2 : RelationshipMapping Ev) (n : String) (ev : Ev)
    (h1 : m1.onEvent = n) (h2 : m2.onEvent = n) :
    emitEvent ns engine [m1, m2] n ev
      = Except.ok [handlerRun ns engine m1 ev, handlerRun ns engine m2 ev] ∧
    (∀ e, m1.resourceId ev = Except.error e →
      (handlerRun ns engine m1 ev).log = HandlerLog.syncFailed e) ∧
    (∀ (e : String) (rid sid : Option String),
      m1.resourceId ev = Except.ok rid → m1.subjectId ev = Except.ok sid →
      (jsFalsy rid || jsFalsy sid) = false →
      engine (writeRelationshipRequest ns
        { type := m1.resourceType, id := rid.getD "" } m1.relation
        { type := m1.subjectType, id := sid.getD "" }) = Except.error e →
      (handlerRun ns engine m1 ev).log = HandlerLog.syncFailed e) := by
  refine ⟨?_, ?_, ?_⟩
  · unfold emitEvent hooksFor
    simp [h1, h2, registeredHandler, promiseAll]
  · intro e he
    unfold handlerRun
    rw [he]
  · intro e rid sid hr hs hok hw
    unfold handlerRun
    rw [hr, hs]
    simp [hok, hw]

/-- Witness for C7: the first mapping's extractor throws, the handler logs the
failure, the sibling mapping still runs (and succeeds), the dispatch fulfills
with both outcomes; and under a write engine that rejects, a well-extracted
mapping logs the failed write inside the handler. -/
theorem dispatch_isolates_handler_failures_witness :
    (emitEvent none okWriteEngine [c7m1, c7m2] "agent.created" 0
      = Except.ok [handlerRun none okWriteEngine c7m1 0, handlerRun none okWriteEngine c7m2 0]) ∧
    (handlerRun none okWriteEngine c7m1 0).log = HandlerLog.syncFailed "extractor crashed" ∧
    (handlerRun none okWriteEngine c7m2 0).log = HandlerLog.synced ∧
    (handlerRun none c7FailEngine c7m2 0).log = HandlerLog.syncFailed "disk full" :=
  ⟨(dispatch_isolates_handler_failures none okWriteEngine c7m1 c7m2 "agent.created" 0 rfl rfl).1,
   (dispatch_isolates_handler_failures none okWriteEngine c7m1 c7m2 "agent.created" 0 rfl rfl).2.1
      "extractor crashed" rfl,
   by decide,
   (dispatch_isolates_handler_failures none c7FailEngine c7m2 c7m1 "agent.created" 0 rfl rfl).2.2
      "disk full" (some "a1") (some "eng") rfl rfl (by decide) rfl⟩

/-- C9: a registered mapping whose extractors both return, one of them an empty
string or null, performs no remote write, is skipped with the missing-ids
warning, and a dispatch of its event still fulfills (no exception escapes). -/
theorem mapping_skipped_on_missing_ids {Ev : Type} (ns : Option String)
    (engine : WriteRelationshipsRequest → Except String Unit)
    (m : RelationshipMapping Ev) (ev : Ev) (rid sid : Option String)
    (hr : m.resourceId ev = Except.ok rid) (hs : m.subjectId ev = Except.ok sid)
    (hfalsy : (jsFalsy rid || jsFalsy sid) = true) :
    handlerRun ns engine m ev = { attempted := [], log := HandlerLog.skippedMissingIds } ∧
    emitEvent ns engine [m] m.onEvent ev
      = Except.ok [{ attempted := [], log := HandlerLog.skippedMissingIds }] := by
  have h1 : handlerRun ns engine m ev
      = { attempted := [], log := HandlerLog.skippedMissingIds } := by
    unfold handlerRun
    rw [hr, hs]
    simp [hfalsy]
  refine ⟨h1, ?_⟩
  unfold emitEvent hooksFor
  simp [registeredHandler, h1, promiseAll]

/-- Witness for C9: a mapping whose resource extractor yields the empty string
is skipped and dispatch fulfills. -/
theorem mapping_skipped_on_missing_ids_witness :
    handlerRun none okWriteEngine c9m 0
      = { attempted := [], log := HandlerLog.skippedMissingIds } ∧
    emitEvent none okWriteEngine [c9m] c9m.onEvent 0
      = Except.ok [{ attempted := [], log := HandlerLog.skippedMissingIds }] :=
  mapping_skipped_on_missing_ids none okWriteEngine c9m 0 (some "") (some "alice")
    rfl rfl (by decide)

/-- C3: both mutation endpoints are declared with `requireAdmin: true`, and the
guarded endpoint runner (spec-modelled boundary enforcement) answers a
403-equivalent to any unprivileged caller without entering the handler, so no
remote mutation request is issued; a nonempty issued-mutation list is only
possible for a privileged caller. -/
theorem mutation_endpoints_require_privilege :
    (∀ h, runGuardedEndpoint writeRelationshipMeta false h
        = ({ status := 403, success := false, error := some "forbidden" }, [])) ∧
    (∀ h, runGuardedEndpoint deleteRelationshipMeta false h
        = ({ status := 403, success := false, error := some "forbidden" }, [])) ∧
    (∀ (priv : Bool) h, (runGuardedEndpoint writeRelationshipMeta priv h).2 ≠ [] → priv = true) ∧
    (∀ (priv : Bool) h, (runGuardedEndpoint deleteRelationshipMeta priv h).2 ≠ [] → priv = true) := by
  refine ⟨fun h => rfl, fun h => rfl, ?_, ?_⟩ <;>
    · intro priv h hne
      cases priv
      · exact absurd rfl hne
      · rfl

/-- Witness for C3: an unprivileged caller gets the 403 with zero mutations on
both endpoints, while a privileged caller's nonempty mutation list certifies
the privilege. -/
theorem mutation_endpoints_require_privilege_witness :
    runGuardedEndpoint writeRelationshipMeta false c3Handler
      = ({ status := 403, success := false, error := some "forbidden" }, []) ∧
    runGuardedEndpoint deleteRelationshipMeta false c3Handler
      = ({ status := 403, success := false, error := some "forbidden" }, []) ∧
    (true = true) :=
  ⟨mutation_endpoints_require_privilege.1 c3Handler,
   mutation_endpoints_require_privilege.2.1 c3Handler,
   mutation_endpoints_require_privilege.2.2.1 true c3Handler (by decide)⟩

end BetterAuthSpicedb
